import Mathlib

/-!
Shallow embedding of the weather screen in `app/(tabs)/weather.tsx`.

The screen owns five pieces of React state (`weather`, `loading`, `error`,
`city`, `inputCity`) and mutates them through three asynchronous flows:
`fetchCoordsByCity` (search-by-name, entered through `handleSearch`),
`handleLocateMe` (device geolocation) and a mount effect that fetches
Berlin by default.  Each flow is embedded as a function from an
environment (the responses of the external geocoding / forecast /
location collaborators) and a starting state to a `Flow` record holding
the final state, the list of intermediate states after every individual
state-setter call, and the list of external requests issued.
-/

namespace WeatherApp

/-- The weather snapshot built in `fetchWeatherByCoords`:
`{ temperature, windspeed, latitude, longitude }`, the coordinate being the
input argument of the fetch.  Floats are modelled as rationals. -/
structure WeatherSnapshot where
  temperature : ℚ
  windspeed : ℚ
  latitude : ℚ
  longitude : ℚ
  deriving DecidableEq

/-- The five `useState` slots of the component. -/
structure PresentationState where
  weather : Option WeatherSnapshot
  loading : Bool
  error : Option String
  city : String
  inputCity : String
  deriving DecidableEq

/-- Outcome of the forecast HTTP call in `fetchWeatherByCoords`:
the fetch itself may reject (`fetchThrows`, carrying `err.message`),
the response may be non-ok, or it is ok and carries the current weather
data.  `echoLat`/`echoLon` model the coordinate echoed back in the
provider's response body, which the code never reads. -/
inductive ForecastResult where
  | fetchThrows (msg : String)
  | notOk
  | ok (temperature windspeed echoLat echoLon : ℚ)
  deriving DecidableEq

/-- Outcome of the geocoding HTTP call in `fetchCoordsByCity`:
reject, non-ok response, `data.results` missing or empty, or a first
candidate `{ name, latitude, longitude }`. -/
inductive GeocodeResult where
  | fetchThrows (msg : String)
  | notOk
  | noResults
  | found (name : String) (latitude longitude : ℚ)
  deriving DecidableEq

/-- Outcome of `Location.requestForegroundPermissionsAsync`: it may reject,
or resolve with a `status` string (granted or anything else). -/
inductive PermResult where
  | throws (msg : String)
  | ok (status : String)
  deriving DecidableEq

/-- Outcome of `Location.getCurrentPositionAsync`: reject, or a device
coordinate. -/
inductive PositionResult where
  | throws (msg : String)
  | ok (latitude longitude : ℚ)
  deriving DecidableEq

/-- One record of `Location.reverseGeocodeAsync`; each field is a string or
null, and the code treats the empty string like null via JS truthiness. -/
structure PlaceRecord where
  city : Option String
  region : Option String
  country : Option String
  deriving DecidableEq

/-- Outcome of `Location.reverseGeocodeAsync`: the call may throw (the
message is ignored by the bare `catch`), or yield a list of records. -/
inductive ReverseResult where
  | throws
  | ok (records : List PlaceRecord)
  deriving DecidableEq

/-- The external world as seen by the component: responses of the two
HTTP APIs and of the three Expo location calls. -/
structure Env where
  forecast : ℚ → ℚ → ForecastResult
  geocode : String → GeocodeResult
  permission : PermResult
  position : PositionResult
  reverseGeocode : ℚ → ℚ → ReverseResult

/-- An external request issued by a flow, recorded in order. -/
inductive Call where
  | forecastReq (latitude longitude : ℚ)
  | geocodeReq (name : String)
  | permissionReq
  | positionReq
  | reverseReq (latitude longitude : ℚ)
  deriving DecidableEq

/-- A flow in progress: current state, the state after every individual
setter call so far, and the external requests issued so far. -/
structure Flow where
  state : PresentationState
  trace : List PresentationState
  calls : List Call
  deriving DecidableEq

/-- Apply one state-setter call, recording the resulting state. -/
def mutate (f : PresentationState → PresentationState) (fl : Flow) : Flow :=
  { fl with state := f fl.state, trace := fl.trace ++ [f fl.state] }

/-- Record one external request. -/
def req (c : Call) (fl : Flow) : Flow :=
  { fl with calls := fl.calls ++ [c] }

/-- JS `String.prototype.trim()` as used on `inputCity`, modelled
structurally on the character list: drop leading and trailing
whitespace. -/
def jsTrim (s : String) : String :=
  String.mk (((s.data.dropWhile Char.isWhitespace).reverse.dropWhile Char.isWhitespace).reverse)

/-- JS `err.message || fallback`: an empty message falls back. -/
def orElseMsg (m fallback : String) : String :=
  if m = "" then fallback else m

/-- JS `err.message || 'Unknown error'` as used in the two fetch helpers. -/
def errMsg (m : String) : String :=
  orElseMsg m "Unknown error"

/-- JS `a || b` on a string-or-null left operand. -/
def jsOr (a : Option String) (b : String) : String :=
  match a with
  | none => b
  | some s => if s = "" then b else s

/-- The label computed by the reverse-geocoding sub-step of
`handleLocateMe`: `place.city || place.region || place.country ||
'Your Location'` on the first record, `'Your Location'` when the list is
missing/empty or the call throws. -/
def reverseLabel : ReverseResult → String
  | .throws => "Your Location"
  | .ok [] => "Your Location"
  | .ok (p :: _) => jsOr p.city (jsOr p.region (jsOr p.country "Your Location"))

/-- `fetchWeatherByCoords(latitude, longitude)` (weather.tsx lines 18-39):
set loading/error/weather, issue the forecast request, then either store
the snapshot stamped with the input coordinate or store the failure
message; the `finally` clears `loading` on every path. -/
def fetchWeatherByCoordsF (env : Env) (latitude longitude : ℚ) (fl : Flow) : Flow :=
  let fl := mutate (fun s => { s with loading := true }) fl
  let fl := mutate (fun s => { s with error := none }) fl
  let fl := mutate (fun s => { s with weather := none }) fl
  let fl := req (.forecastReq latitude longitude) fl
  match env.forecast latitude longitude with
  | .fetchThrows m =>
      let fl := mutate (fun s => { s with error := some (errMsg m) }) fl
      mutate (fun s => { s with loading := false }) fl
  | .notOk =>
      let fl := mutate (fun s => { s with error := some (errMsg "Failed to fetch weather") }) fl
      mutate (fun s => { s with loading := false }) fl
  | .ok t w _ _ =>
      let fl := mutate (fun s => { s with weather := some ⟨t, w, latitude, longitude⟩ }) fl
      mutate (fun s => { s with loading := false }) fl

/-- `fetchCoordsByCity(cityName)` (weather.tsx lines 42-61): set
loading/error/weather, issue the geocoding request; on a first candidate
set `city` to its name and delegate to `fetchWeatherByCoords` (which
never throws, having its own catch/finally); on any failure store the
message; the outer `finally` clears `loading` again on every path. -/
def fetchCoordsByCityF (env : Env) (cityName : String) (fl : Flow) : Flow :=
  let fl := mutate (fun s => { s with loading := true }) fl
  let fl := mutate (fun s => { s with error := none }) fl
  let fl := mutate (fun s => { s with weather := none }) fl
  let fl := req (.geocodeReq cityName) fl
  match env.geocode cityName with
  | .fetchThrows m =>
      let fl := mutate (fun s => { s with error := some (errMsg m) }) fl
      mutate (fun s => { s with loading := false }) fl
  | .notOk =>
      let fl := mutate (fun s => { s with error := some (errMsg "Failed to fetch city coordinates") }) fl
      mutate (fun s => { s with loading := false }) fl
  | .noResults =>
      let fl := mutate (fun s => { s with error := some (errMsg "City not found") }) fl
      mutate (fun s => { s with loading := false }) fl
  | .found name lat lon =>
      let fl := mutate (fun s => { s with city := name }) fl
      let fl := fetchWeatherByCoordsF env lat lon fl
      mutate (fun s => { s with loading := false }) fl

/-- `handleSearch` (weather.tsx lines 70-74): a no-op unless the trimmed
input is non-empty (JS truthiness), else run `fetchCoordsByCity` on the
trimmed input. -/
def handleSearchF (env : Env) (fl : Flow) : Flow :=
  if jsTrim fl.state.inputCity = "" then fl
  else fetchCoordsByCityF env (jsTrim fl.state.inputCity) fl

/-- `handleLocateMe` (weather.tsx lines 77-111): set loading/error/weather,
request permission; a non-granted status stores the fixed denial message
and clears loading; otherwise read the position, set `city` from the
best-effort reverse-geocode label (the inner try/catch absorbs every
reverse failure), and fetch weather at the device coordinate.  A
rejection of the permission or position call lands in the outer catch,
which stores `err.message || 'Could not get location'` and clears
loading. -/
def handleLocateMeF (env : Env) (fl : Flow) : Flow :=
  let fl := mutate (fun s => { s with loading := true }) fl
  let fl := mutate (fun s => { s with error := none }) fl
  let fl := mutate (fun s => { s with weather := none }) fl
  let fl := req .permissionReq fl
  match env.permission with
  | .throws m =>
      let fl := mutate (fun s => { s with error := some (orElseMsg m "Could not get location") }) fl
      mutate (fun s => { s with loading := false }) fl
  | .ok status =>
      if status = "granted" then
        let fl := req .positionReq fl
        match env.position with
        | .throws m =>
            let fl := mutate (fun s => { s with error := some (orElseMsg m "Could not get location") }) fl
            mutate (fun s => { s with loading := false }) fl
        | .ok lat lon =>
            let fl := req (.reverseReq lat lon) fl
            let fl := mutate (fun s => { s with city := reverseLabel (env.reverseGeocode lat lon) }) fl
            fetchWeatherByCoordsF env lat lon fl
      else
        let fl := mutate (fun s => { s with error := some "Permission to access location was denied" }) fl
        mutate (fun s => { s with loading := false }) fl

/-- The mount effect (weather.tsx lines 64-67): `setCity('Berlin')` then
`fetchWeatherByCoords(52.52, 13.41)`. -/
def initDefaultF (env : Env) (fl : Flow) : Flow :=
  let fl := mutate (fun s => { s with city := "Berlin" }) fl
  fetchWeatherByCoordsF env (52.52 : ℚ) (13.41 : ℚ) fl

/-- A fresh flow record for a starting state. -/
def start (s : PresentationState) : Flow :=
  { state := s, trace := [], calls := [] }

/-- Final state of `fetchWeatherByCoords`. -/
def fetchWeatherByCoords (env : Env) (latitude longitude : ℚ) (s : PresentationState) : PresentationState :=
  (fetchWeatherByCoordsF env latitude longitude (start s)).state

/-- Final state of `fetchCoordsByCity`. -/
def fetchCoordsByCity (env : Env) (cityName : String) (s : PresentationState) : PresentationState :=
  (fetchCoordsByCityF env cityName (start s)).state

/-- Final state of `handleSearch`. -/
def handleSearch (env : Env) (s : PresentationState) : PresentationState :=
  (handleSearchF env (start s)).state

/-- Final state of `handleLocateMe`. -/
def handleLocateMe (env : Env) (s : PresentationState) : PresentationState :=
  (handleLocateMeF env (start s)).state

/-- Final state of the mount effect. -/
def initDefault (env : Env) (s : PresentationState) : PresentationState :=
  (initDefaultF env (start s)).state

/-- The `weather` slot left by `fetchWeatherByCoords` for a given forecast
outcome at a given input coordinate. -/
def forecastWeather : ForecastResult → ℚ → ℚ → Option WeatherSnapshot
  | .ok t w _ _, la, lo => some ⟨t, w, la, lo⟩
  | .notOk, _, _ => none
  | .fetchThrows _, _, _ => none

/-- The `error` slot left by `fetchWeatherByCoords` for a given forecast
outcome. -/
def forecastError : ForecastResult → Option String
  | .ok _ _ _ _ => none
  | .notOk => some (errMsg "Failed to fetch weather")
  | .fetchThrows m => some (errMsg m)

/-- Settled state of `fetchWeatherByCoords`: weather and error are decided
by the forecast outcome alone, loading ends false, and `city`/`inputCity`
pass through untouched. -/
theorem fetchWeatherByCoordsF_state (env : Env) (la lo : ℚ) (fl : Flow) :
    (fetchWeatherByCoordsF env la lo fl).state =
      { weather := forecastWeather (env.forecast la lo) la lo,
        loading := false,
        error := forecastError (env.forecast la lo),
        city := fl.state.city,
        inputCity := fl.state.inputCity } := by
  rcases h : env.forecast la lo with m | _ | ⟨t, w, a, b⟩ <;>
    simp [fetchWeatherByCoordsF, mutate, req, forecastWeather, forecastError, h]

/-- Settled state of `fetchCoordsByCity`, by geocoding outcome: every
failure keeps `city` and stores a message; a found candidate renames
`city` and hands over to the weather fetch. -/
theorem fetchCoordsByCityF_state (env : Env) (c : String) (fl : Flow) :
    (fetchCoordsByCityF env c fl).state =
      match env.geocode c with
      | .fetchThrows m =>
          { fl.state with loading := false, weather := none, error := some (errMsg m) }
      | .notOk =>
          { fl.state with loading := false, weather := none, error := some (errMsg "Failed to fetch city coordinates") }
      | .noResults =>
          { fl.state with loading := false, weather := none, error := some (errMsg "City not found") }
      | .found name la lo =>
          { weather := forecastWeather (env.forecast la lo) la lo,
            loading := false,
            error := forecastError (env.forecast la lo),
            city := name,
            inputCity := fl.state.inputCity } := by
  rcases h : env.geocode c with m | _ | _ | ⟨name, la, lo⟩ <;>
    simp [fetchCoordsByCityF, mutate, req, h, fetchWeatherByCoordsF_state]

/-- Settled state of `handleLocateMe`, by permission/position outcome. -/
theorem handleLocateMeF_state (env : Env) (fl : Flow) :
    (handleLocateMeF env fl).state =
      match env.permission with
      | .throws m =>
          { fl.state with loading := false, weather := none, error := some (orElseMsg m "Could not get location") }
      | .ok status =>
          if status = "granted" then
            match env.position with
            | .throws m =>
                { fl.state with loading := false, weather := none, error := some (orElseMsg m "Could not get location") }
            | .ok la lo =>
                { weather := forecastWeather (env.forecast la lo) la lo,
                  loading := false,
                  error := forecastError (env.forecast la lo),
                  city := reverseLabel (env.reverseGeocode la lo),
                  inputCity := fl.state.inputCity }
          else
            { fl.state with loading := false, weather := none, error := some "Permission to access location was denied" } := by
  rcases hp : env.permission with m | status
  · simp [handleLocateMeF, mutate, req, hp]
  · by_cases hs : status = "granted"
    · rcases hpos : env.position with m | ⟨la, lo⟩ <;>
        simp [handleLocateMeF, mutate, req, hp, hpos, hs, fetchWeatherByCoordsF_state]
    · simp [handleLocateMeF, mutate, req, hp, hs]

/-- State projection of a fresh flow. -/
@[simp] theorem start_state (s : PresentationState) : (start s).state = s := rfl

/-- Trace of a fresh flow. -/
@[simp] theorem start_trace (s : PresentationState) : (start s).trace = [] := rfl

/-- Calls of a fresh flow. -/
@[simp] theorem start_calls (s : PresentationState) : (start s).calls = [] := rfl

/-- Settled state of the mount effect: city is "Berlin" and the weather
fetch runs at the Berlin literal coordinate. -/
theorem initDefaultF_state (env : Env) (fl : Flow) :
    (initDefaultF env fl).state =
      { weather := forecastWeather (env.forecast 52.52 13.41) 52.52 13.41,
        loading := false,
        error := forecastError (env.forecast 52.52 13.41),
        city := "Berlin",
        inputCity := fl.state.inputCity } := by
  simp [initDefaultF, mutate, fetchWeatherByCoordsF_state]

/-- The three state mutations of the Start step, in source order:
`setLoading(true)`, `setError(null)`, `setWeather(null)`. -/
def startMutations (s : PresentationState) : List PresentationState :=
  [{ s with loading := true },
   { s with loading := true, error := none },
   { s with loading := true, error := none, weather := none }]

/-- External requests of `fetchCoordsByCity`: the geocoding request, then
a forecast request exactly when a candidate was found. -/
theorem fetchCoordsByCityF_calls (env : Env) (c : String) (fl : Flow) :
    (fetchCoordsByCityF env c fl).calls =
      match env.geocode c with
      | .found _ la lo => fl.calls ++ [Call.geocodeReq c, Call.forecastReq la lo]
      | _ => fl.calls ++ [Call.geocodeReq c] := by
  rcases h : env.geocode c with m | _ | _ | ⟨name, la, lo⟩
  · simp [fetchCoordsByCityF, mutate, req, h]
  · simp [fetchCoordsByCityF, mutate, req, h]
  · simp [fetchCoordsByCityF, mutate, req, h]
  · rcases h2 : env.forecast la lo with m | _ | ⟨t, w, a, b⟩ <;>
      simp [fetchCoordsByCityF, fetchWeatherByCoordsF, mutate, req, h, h2]

/-- External requests of `handleLocateMe` when the permission status is
not granted: only the permission request itself. -/
theorem handleLocateMeF_calls_denied (env : Env) (fl : Flow) (status : String)
    (hp : env.permission = .ok status) (hs : status ≠ "granted") :
    (handleLocateMeF env fl).calls = fl.calls ++ [Call.permissionReq] := by
  simp [handleLocateMeF, mutate, req, hp, hs]

/-- The first three trace entries of the weather fetch are exactly the
Start block. -/
theorem fetchWeatherByCoordsF_trace_take (env : Env) (la lo : ℚ) (s : PresentationState) :
    (fetchWeatherByCoordsF env la lo (start s)).trace.take 3 = startMutations s := by
  rcases h : env.forecast la lo with m | _ | ⟨t, w, a, b⟩ <;>
    simp [fetchWeatherByCoordsF, mutate, req, h, startMutations]

/-- The first three trace entries of the search flow are exactly the
Start block. -/
theorem fetchCoordsByCityF_trace_take (env : Env) (c : String) (s : PresentationState) :
    (fetchCoordsByCityF env c (start s)).trace.take 3 = startMutations s := by
  rcases h : env.geocode c with m | _ | _ | ⟨name, la, lo⟩
  · simp [fetchCoordsByCityF, mutate, req, h, startMutations]
  · simp [fetchCoordsByCityF, mutate, req, h, startMutations]
  · simp [fetchCoordsByCityF, mutate, req, h, startMutations]
  · rcases h2 : env.forecast la lo with m | _ | ⟨t, w, a, b⟩ <;>
      simp [fetchCoordsByCityF, fetchWeatherByCoordsF, mutate, req, h, h2, startMutations]

/-- The first three trace entries of the locate-device flow are exactly
the Start block. -/
theorem handleLocateMeF_trace_take (env : Env) (s : PresentationState) :
    (handleLocateMeF env (start s)).trace.take 3 = startMutations s := by
  rcases hp : env.permission with m | status
  · simp [handleLocateMeF, mutate, req, hp, startMutations]
  · by_cases hs : status = "granted"
    · rcases hpos : env.position with m | ⟨la, lo⟩
      · simp [handleLocateMeF, mutate, req, hp, hpos, hs, startMutations]
      · rcases hf : env.forecast la lo with m | _ | ⟨t, w, a, b⟩ <;>
          simp [handleLocateMeF, fetchWeatherByCoordsF, mutate, req, hp, hpos, hs, hf, startMutations]
    · simp [handleLocateMeF, mutate, req, hp, hs, startMutations]

/-- The very first trace entry of the mount effect is the `city` update
to "Berlin". -/
theorem initDefaultF_trace_head (env : Env) (s : PresentationState) :
    (initDefaultF env (start s)).trace.head? = some { s with city := "Berlin" } := by
  rcases h : env.forecast 52.52 13.41 with m | _ | ⟨t, w, a, b⟩ <;>
    simp [initDefaultF, fetchWeatherByCoordsF, mutate, req, h]

/-- Running the search flow with a non-empty trimmed input. -/
theorem handleSearch_run (env : Env) (s : PresentationState) (h : jsTrim s.inputCity ≠ "") :
    handleSearch env s = (fetchCoordsByCityF env (jsTrim s.inputCity) (start s)).state := by
  rw [handleSearch, handleSearchF]
  simp [h]

/-- An environment in which every collaborator succeeds. -/
def okEnv : Env where
  forecast := fun _ _ => .ok 20 5 50 13
  geocode := fun _ => .found "TestCity" 1 2
  permission := .ok "granted"
  position := .ok 3 4
  reverseGeocode := fun _ _ => .ok [⟨some "Springfield", some "Illinois", some "USA"⟩]

/-- A state carrying the stale results of a previous flow. -/
def staleState : PresentationState where
  weather := some ⟨7, 3, 1, 1⟩
  loading := false
  error := some "old error"
  city := "Oldtown"
  inputCity := "TestCity"

/-- The stale state with a whitespace-only search input. -/
def whitespaceInputState : PresentationState :=
  { staleState with inputCity := "   " }

/-- C1: every flow invocation that reaches a terminal outcome — whatever
the Resolve and Fetch outcomes — ends with `loading = false`; `loading`
never remains true after a flow has settled. -/
theorem settle_clears_loading (env : Env) (la lo : ℚ) (c : String) (s : PresentationState) :
    (fetchWeatherByCoords env la lo s).loading = false ∧
    (fetchCoordsByCity env c s).loading = false ∧
    (handleLocateMe env s).loading = false ∧
    (initDefault env s).loading = false := by
  refine ⟨?_, ?_, ?_, ?_⟩
  · simp [fetchWeatherByCoords, fetchWeatherByCoordsF_state]
  · rw [fetchCoordsByCity, fetchCoordsByCityF_state]
    rcases h : env.geocode c <;> simp [h]
  · rw [handleLocateMe, handleLocateMeF_state]
    rcases hp : env.permission with m | status
    · simp
    · by_cases hs : status = "granted"
      · rcases hpos : env.position <;> simp [hs, hpos]
      · simp [hs]
  · simp [initDefault, initDefaultF_state]

/-- C2 (amended): at the Start step of every flow the code performs, in
one uninterrupted synchronous block and in this source order,
`loading := true`, then `error := none`, then `weather := none`; hence
after the Start block (the first suspension point) `loading` is true and
`weather` and `error` are absent. -/
theorem start_block_order (env : Env) (la lo : ℚ) (c : String) (s : PresentationState) :
    (fetchWeatherByCoordsF env la lo (start s)).trace.take 3 = startMutations s ∧
    (fetchCoordsByCityF env c (start s)).trace.take 3 = startMutations s ∧
    (handleLocateMeF env (start s)).trace.take 3 = startMutations s ∧
    startMutations s =
      [{ s with loading := true },
       { s with loading := true, error := none },
       { s with loading := true, error := none, weather := none }] :=
  ⟨fetchWeatherByCoordsF_trace_take env la lo s, fetchCoordsByCityF_trace_take env c s,
   handleLocateMeF_trace_take env s, rfl⟩

/-- C2 is false as stated: starting the weather fetch from a state that
still holds a previous snapshot and error, the first intermediate state
already has `loading = true` while the stale `weather` and `error` are
still present — the code raises `loading` before the clears, not after
them. -/
theorem start_order_counterexample :
    ¬ (∀ t ∈ (fetchWeatherByCoordsF okEnv 1 2 (start staleState)).trace,
        t.loading = true → t.weather = none ∧ t.error = none) := by
  decide

/-- C3: search-by-name with an input that is empty or whitespace-only
after trimming mutates no state slot and issues no external request. -/
theorem empty_search_noop (env : Env) (s : PresentationState) (h : jsTrim s.inputCity = "") :
    handleSearch env s = s ∧
    (handleSearchF env (start s)).trace = [] ∧
    (handleSearchF env (start s)).calls = [] := by
  refine ⟨?_, ?_, ?_⟩ <;> simp [handleSearch, handleSearchF, h]

/-- C3 witness: a whitespace-only input is a complete no-op. -/
theorem empty_search_noop_witness :
    handleSearch okEnv whitespaceInputState = whitespaceInputState ∧
    (handleSearchF okEnv (start whitespaceInputState)).trace = [] ∧
    (handleSearchF okEnv (start whitespaceInputState)).calls = [] :=
  empty_search_noop okEnv whitespaceInputState (by decide)

/-- The success environment with the permission denied. -/
def deniedEnv : Env :=
  { okEnv with permission := .ok "denied" }

/-- C4: a locate-device invocation whose permission request returns a
non-granted status terminates with the fixed denial message,
`loading = false`, `weather` absent, and issues no position read, no
reverse geocode and no weather fetch. -/
theorem permission_denied_terminal (env : Env) (s : PresentationState) (status : String)
    (hp : env.permission = .ok status) (hs : status ≠ "granted") :
    handleLocateMe env s =
      { s with loading := false, weather := none, error := some "Permission to access location was denied" } ∧
    (handleLocateMeF env (start s)).calls = [Call.permissionReq] := by
  constructor
  · rw [handleLocateMe, handleLocateMeF_state]
    simp [hp, hs]
  · simpa using handleLocateMeF_calls_denied env (start s) status hp hs

/-- C4 witness at a concrete denied environment. -/
theorem permission_denied_terminal_witness :
    handleLocateMe deniedEnv staleState =
      { staleState with loading := false, weather := none, error := some "Permission to access location was denied" } ∧
    (handleLocateMeF deniedEnv (start staleState)).calls = [Call.permissionReq] :=
  permission_denied_terminal deniedEnv staleState "denied" rfl (by decide)

/-- JS falsiness of a string-or-null value: null or the empty string. -/
def jsFalsy (a : Option String) : Prop :=
  a = none ∨ a = some ""

/-- The JS or-chain never returns empty when its right arm is non-empty. -/
theorem jsOr_ne_of_ne (a : Option String) (b : String) (hb : b ≠ "") : jsOr a b ≠ "" := by
  rcases a with _ | v
  · simpa [jsOr] using hb
  · by_cases hv : v = "" <;> simp [jsOr, hv, hb]

/-- The reverse-geocoding label is never the empty string. -/
theorem reverseLabel_ne_empty (r : ReverseResult) : reverseLabel r ≠ "" := by
  rcases r with _ | records
  · simp [reverseLabel]
  · rcases records with _ | ⟨p, ps⟩
    · simp [reverseLabel]
    · exact jsOr_ne_of_ne _ _ (jsOr_ne_of_ne _ _ (jsOr_ne_of_ne _ _ (by simp)))

/-- C5: whatever the reverse-geocoding outcome (records, empty list, or a
throwing provider), no error from this sub-step reaches the flow's
`error` slot — the settled error is the same for any reverse outcome —
and afterward `city` is the non-empty label picked by the priority
city, else region, else country, else the literal "Your Location". -/
theorem reverse_geocode_best_effort (env : Env) (g : ℚ → ℚ → ReverseResult)
    (s : PresentationState) (la lo : ℚ)
    (hp : env.permission = .ok "granted") (hpos : env.position = .ok la lo) :
    (handleLocateMe { env with reverseGeocode := g } s).error = (handleLocateMe env s).error ∧
    (handleLocateMe { env with reverseGeocode := g } s).city = reverseLabel (g la lo) ∧
    reverseLabel (g la lo) ≠ "" ∧
    (g la lo = .throws → reverseLabel (g la lo) = "Your Location") ∧
    (g la lo = .ok [] → reverseLabel (g la lo) = "Your Location") ∧
    (∀ p ps, g la lo = .ok (p :: ps) →
      (∀ cn, p.city = some cn → cn ≠ "" → reverseLabel (g la lo) = cn) ∧
      (jsFalsy p.city → ∀ rn, p.region = some rn → rn ≠ "" → reverseLabel (g la lo) = rn) ∧
      (jsFalsy p.city → jsFalsy p.region →
        ∀ kn, p.country = some kn → kn ≠ "" → reverseLabel (g la lo) = kn) ∧
      (jsFalsy p.city → jsFalsy p.region → jsFalsy p.country →
        reverseLabel (g la lo) = "Your Location")) := by
  refine ⟨?_, ?_, reverseLabel_ne_empty _, ?_, ?_, ?_⟩
  · rw [handleLocateMe, handleLocateMe, handleLocateMeF_state, handleLocateMeF_state]
    simp [hp, hpos]
  · rw [handleLocateMe, handleLocateMeF_state]
    simp [hp, hpos]
  · intro h; rw [h]; rfl
  · intro h; rw [h]; rfl
  · intro p ps h
    refine ⟨?_, ?_, ?_, ?_⟩
    · intro cn hc hne
      simp [h, reverseLabel, jsOr, hc, hne]
    · intro hf rn hr hne
      rcases hf with hf | hf <;> simp [h, reverseLabel, jsOr, hf, hr, hne]
    · intro hf1 hf2 kn hk hne
      rcases hf1 with hf1 | hf1 <;> rcases hf2 with hf2 | hf2 <;>
        simp [h, reverseLabel, jsOr, hf1, hf2, hk, hne]
    · intro hf1 hf2 hf3
      rcases hf1 with hf1 | hf1 <;> rcases hf2 with hf2 | hf2 <;> rcases hf3 with hf3 | hf3 <;>
        simp [h, reverseLabel, jsOr, hf1, hf2, hf3]

/-- A reverse-geocoding record with no city label. -/
def regionOnlyRecord : PlaceRecord :=
  { city := none, region := some "Bavaria", country := some "Germany" }

/-- C5 witness: a record without a city yields the region label, and the
flow error is the one the unmodified environment produces. -/
theorem reverse_geocode_best_effort_witness :
    (handleLocateMe { okEnv with reverseGeocode := fun _ _ => .ok [regionOnlyRecord] } staleState).city
      = "Bavaria" ∧
    (handleLocateMe { okEnv with reverseGeocode := fun _ _ => .ok [regionOnlyRecord] } staleState).error
      = (handleLocateMe okEnv staleState).error := by
  have h := reverse_geocode_best_effort okEnv (fun _ _ => .ok [regionOnlyRecord]) staleState 3 4 rfl rfl
  refine ⟨?_, h.1⟩
  rw [h.2.1]
  decide

/-- The geocoding and forecast responses of the Paris scenario: the
forecast response echoes a coordinate different from the input one. -/
def envParis : Env where
  forecast := fun _ _ => .ok 18.2 9.4 48.86 2.35
  geocode := fun _ => .found "Paris" 48.8566 2.3522
  permission := .ok "granted"
  position := .ok 0 0
  reverseGeocode := fun _ _ => .ok []

/-- The starting state of the Paris scenario. -/
def sParis : PresentationState where
  weather := none
  loading := false
  error := none
  city := "Berlin"
  inputCity := "Paris"

/-- C6: a successful fetch stamps the snapshot with the input coordinate,
independently of the coordinate echoed by the provider; in the Paris
scenario the final state is city "Paris", the expected snapshot at the
geocoded coordinate, loading false and no error. -/
theorem snapshot_uses_input_coordinate (env : Env) (la lo t w a b : ℚ)
    (s : PresentationState) (h : env.forecast la lo = .ok t w a b) :
    (fetchWeatherByCoords env la lo s).weather = some ⟨t, w, la, lo⟩ ∧
    (handleSearch envParis sParis).city = "Paris" ∧
    (handleSearch envParis sParis).weather = some ⟨18.2, 9.4, 48.8566, 2.3522⟩ ∧
    (handleSearch envParis sParis).loading = false ∧
    (handleSearch envParis sParis).error = none := by
  have hrun := handleSearch_run envParis sParis (by decide)
  have htrim : jsTrim sParis.inputCity = "Paris" := by decide
  rw [htrim] at hrun
  refine ⟨?_, ?_, ?_, ?_, ?_⟩
  · simp [fetchWeatherByCoords, fetchWeatherByCoordsF_state, h, forecastWeather]
  all_goals rw [hrun, fetchCoordsByCityF_state]; simp [envParis, forecastWeather, forecastError]

/-- C6 witness: concrete success with an echoed coordinate (50, 13)
different from the input coordinate (1, 2). -/
theorem snapshot_uses_input_coordinate_witness :
    (fetchWeatherByCoords okEnv 1 2 staleState).weather = some ⟨20, 5, 1, 2⟩ ∧
    (handleSearch envParis sParis).weather = some ⟨18.2, 9.4, 48.8566, 2.3522⟩ :=
  ⟨(snapshot_uses_input_coordinate okEnv 1 2 20 5 50 13 staleState rfl).1,
   (snapshot_uses_input_coordinate okEnv 1 2 20 5 50 13 staleState rfl).2.2.1⟩

/-- C7: the mount effect sets city to the literal "Berlin" as its very
first mutation, unconditionally on the fetch outcome, and on a
successful forecast the snapshot sits at latitude 52.52 and longitude
13.41. -/
theorem init_default_berlin (env : Env) (s : PresentationState) :
    (initDefault env s).city = "Berlin" ∧
    (initDefaultF env (start s)).trace.head? = some { s with city := "Berlin" } ∧
    (∀ t w a b, env.forecast 52.52 13.41 = .ok t w a b →
      (initDefault env s).weather = some ⟨t, w, 52.52, 13.41⟩ ∧
      (initDefault env s).loading = false ∧
      (initDefault env s).error = none) := by
  refine ⟨?_, initDefaultF_trace_head env s, ?_⟩
  · simp [initDefault, initDefaultF_state]
  · intro t w a b h
    refine ⟨?_, ?_, ?_⟩ <;>
      simp [initDefault, initDefaultF_state, h, forecastWeather, forecastError]

/-- C7 witness in the all-success environment. -/
theorem init_default_berlin_witness :
    (initDefault okEnv staleState).city = "Berlin" ∧
    (initDefault okEnv staleState).weather = some ⟨20, 5, 52.52, 13.41⟩ :=
  ⟨(init_default_berlin okEnv staleState).1,
   ((init_default_berlin okEnv staleState).2.2 20 5 50 13 rfl).1⟩

/-- A non-empty message is kept as is by the JS message fallback. -/
theorem errMsg_of_ne (m : String) (h : m ≠ "") : errMsg m = m := by
  simp [errMsg, orElseMsg, h]

/-- C8: when forward geocoding fails — rejected fetch, non-ok response,
or an empty candidate list — `city` keeps its prior value, an error is
stored, and no forecast request is issued; an empty candidate list in
particular yields exactly "City not found" with `weather` absent and
`loading` false. -/
theorem geocode_failure_no_fetch (env : Env) (c : String) (s : PresentationState) :
    (∀ m, env.geocode c = .fetchThrows m →
      (fetchCoordsByCity env c s).city = s.city ∧
      (fetchCoordsByCity env c s).error = some (errMsg m) ∧
      (fetchCoordsByCityF env c (start s)).calls = [Call.geocodeReq c]) ∧
    (env.geocode c = .notOk →
      (fetchCoordsByCity env c s).city = s.city ∧
      (fetchCoordsByCity env c s).error = some "Failed to fetch city coordinates" ∧
      (fetchCoordsByCityF env c (start s)).calls = [Call.geocodeReq c]) ∧
    (env.geocode c = .noResults →
      (fetchCoordsByCity env c s).city = s.city ∧
      (fetchCoordsByCity env c s).error = some "City not found" ∧
      (fetchCoordsByCity env c s).weather = none ∧
      (fetchCoordsByCity env c s).loading = false ∧
      (fetchCoordsByCityF env c (start s)).calls = [Call.geocodeReq c]) := by
  refine ⟨?_, ?_, ?_⟩
  · intro m h
    refine ⟨?_, ?_, ?_⟩
    · rw [fetchCoordsByCity, fetchCoordsByCityF_state]; simp [h]
    · rw [fetchCoordsByCity, fetchCoordsByCityF_state]; simp [h]
    · rw [fetchCoordsByCityF_calls]; simp [h]
  · intro h
    refine ⟨?_, ?_, ?_⟩
    · rw [fetchCoordsByCity, fetchCoordsByCityF_state]; simp [h]
    · rw [fetchCoordsByCity, fetchCoordsByCityF_state]
      simp [h, errMsg_of_ne "Failed to fetch city coordinates" (by decide)]
    · rw [fetchCoordsByCityF_calls]; simp [h]
  · intro h
    refine ⟨?_, ?_, ?_, ?_, ?_⟩
    · rw [fetchCoordsByCity, fetchCoordsByCityF_state]; simp [h]
    · rw [fetchCoordsByCity, fetchCoordsByCityF_state]
      simp [h, errMsg_of_ne "City not found" (by decide)]
    · rw [fetchCoordsByCity, fetchCoordsByCityF_state]; simp [h]
    · rw [fetchCoordsByCity, fetchCoordsByCityF_state]; simp [h]
    · rw [fetchCoordsByCityF_calls]; simp [h]

/-- The success environment with a geocoding response that has no
candidates. -/
def notFoundEnv : Env :=
  { okEnv with geocode := fun _ => .noResults }

/-- C8 witness on the empty-candidate scenario. -/
theorem geocode_failure_no_fetch_witness :
    (fetchCoordsByCity notFoundEnv "Zzzzznotacity" staleState).city = staleState.city ∧
    (fetchCoordsByCity notFoundEnv "Zzzzznotacity" staleState).error = some "City not found" ∧
    (fetchCoordsByCity notFoundEnv "Zzzzznotacity" staleState).weather = none ∧
    (fetchCoordsByCity notFoundEnv "Zzzzznotacity" staleState).loading = false ∧
    (fetchCoordsByCityF notFoundEnv "Zzzzznotacity" (start staleState)).calls
      = [Call.geocodeReq "Zzzzznotacity"] :=
  (geocode_failure_no_fetch notFoundEnv "Zzzzznotacity" staleState).2.2 rfl

/-- C9: with a resolvable non-empty name and no interleaving triggers,
running search-by-name twice in sequence settles exactly as the second
run alone does — the two final states coincide — with `loading` false
and exactly one of `weather`/`error` set. -/
theorem search_idempotent (env : Env) (s : PresentationState) (name : String) (la lo : ℚ)
    (hin : jsTrim s.inputCity ≠ "")
    (hgeo : env.geocode (jsTrim s.inputCity) = .found name la lo) :
    handleSearch env (handleSearch env s) = handleSearch env s ∧
    (handleSearch env s).loading = false ∧
    (((handleSearch env s).weather.isSome ∧ (handleSearch env s).error = none) ∨
     ((handleSearch env s).weather = none ∧ (handleSearch env s).error.isSome)) := by
  have h1 : handleSearch env s =
      { weather := forecastWeather (env.forecast la lo) la lo,
        loading := false,
        error := forecastError (env.forecast la lo),
        city := name,
        inputCity := s.inputCity } := by
    rw [handleSearch_run env s hin, fetchCoordsByCityF_state]
    simp [hgeo]
  have hin2 : jsTrim (handleSearch env s).inputCity ≠ "" := by
    rw [h1]; exact hin
  have h2 : handleSearch env (handleSearch env s) = handleSearch env s := by
    rw [handleSearch_run env _ hin2, fetchCoordsByCityF_state]
    conv in jsTrim _ => rw [h1]
    simp [hgeo, h1]
  refine ⟨h2, ?_, ?_⟩
  · rw [h1]
  · rw [h1]
    rcases hf : env.forecast la lo with m | _ | ⟨t, w, a, b⟩ <;>
      simp [forecastWeather, forecastError]

/-- C9 witness in the all-success environment. -/
theorem search_idempotent_witness :
    handleSearch okEnv (handleSearch okEnv staleState) = handleSearch okEnv staleState ∧
    (handleSearch okEnv staleState).loading = false :=
  ⟨(search_idempotent okEnv staleState "TestCity" 1 2 (by decide) (by decide)).1,
   (search_idempotent okEnv staleState "TestCity" 1 2 (by decide) (by decide)).2.1⟩

/-- The success environment with a failing forecast response. -/
def fetchFailEnv : Env :=
  { okEnv with forecast := fun _ _ => .notOk }

/-- C10: when forward geocoding succeeds but the weather fetch fails, the
outcome is not rolled back: `city` is already the newly resolved name,
`error` holds the fetch failure's message, `weather` is absent and
`loading` is false. -/
theorem fetch_failure_keeps_resolved_city (env : Env) (c : String) (s : PresentationState)
    (name : String) (la lo : ℚ) (hgeo : env.geocode c = .found name la lo) :
    (env.forecast la lo = .notOk →
      (fetchCoordsByCity env c s).city = name ∧
      (fetchCoordsByCity env c s).error = some "Failed to fetch weather" ∧
      (fetchCoordsByCity env c s).weather = none ∧
      (fetchCoordsByCity env c s).loading = false) ∧
    (∀ m, env.forecast la lo = .fetchThrows m → m ≠ "" →
      (fetchCoordsByCity env c s).city = name ∧
      (fetchCoordsByCity env c s).error = some m ∧
      (fetchCoordsByCity env c s).weather = none ∧
      (fetchCoordsByCity env c s).loading = false) := by
  constructor
  · intro h
    rw [fetchCoordsByCity, fetchCoordsByCityF_state]
    simp [hgeo, h, forecastWeather, forecastError,
      errMsg_of_ne "Failed to fetch weather" (by decide)]
  · intro m h hm
    rw [fetchCoordsByCity, fetchCoordsByCityF_state]
    simp [hgeo, h, forecastWeather, forecastError, errMsg_of_ne m hm]

/-- C10 witness: geocoding finds "TestCity" but the forecast response is
non-ok. -/
theorem fetch_failure_keeps_resolved_city_witness :
    (fetchCoordsByCity fetchFailEnv "TestCity" staleState).city = "TestCity" ∧
    (fetchCoordsByCity fetchFailEnv "TestCity" staleState).error = some "Failed to fetch weather" ∧
    (fetchCoordsByCity fetchFailEnv "TestCity" staleState).weather = none ∧
    (fetchCoordsByCity fetchFailEnv "TestCity" staleState).loading = false :=
  (fetch_failure_keeps_resolved_city fetchFailEnv "TestCity" staleState
    "TestCity" 1 2 rfl).1 rfl

end WeatherApp
